import Mathlib

/-!
A verification development for `backup.py`, a tool that exports saved-article
data from the Omnivore GraphQL API and renders it as CSV.

The embedding models:
  - the data model (`PageInfo`, `Label`, `SearchItem`, `SearchItemEdge`);
  - the cursor-driven pagination loop `OmnivoreBackup._fetch`, with the query
    executor modelled as a finite schedule of call outcomes (the deterministic
    simulated service emits its responses in call order);
  - `OmnivoreBackup.run` / `_finish` (interrupt handling and CSV emission);
  - the formatter `_generate_csv`, `_format_labels`, `_unix_ts`;
  - the token check in `main`.

Python exceptions are modelled with `Option` / explicit outcome variants.
Strings are Lean `String`s; CPython `datetime.fromisoformat` is embedded as a
parser for the offset-bearing ISO-8601 shapes the tool's inputs use (naive
datetimes, whose `timestamp()` depends on the host timezone, are outside the
model and parse to `none`).
-/

/-- `PageInfo` dataclass from backup.py. -/
structure PageInfo where
  hasNextPage : Bool
  hasPreviousPage : Bool
  startCursor : String
  endCursor : String
  totalCount : Int
deriving Repr, DecidableEq

/-- `Label` dataclass from backup.py (at runtime label values arrive as
`{name: ...}` dictionaries with the single key `name`, which this structure
captures). -/
structure Label where
  name : String
deriving Repr, DecidableEq

/-- `SearchItem` dataclass from backup.py.  `publishedAt` may be the empty
string; Python's falsiness test `not node.publishedAt` is modelled as
equality with `""` (an absent/None value behaves the same way downstream). -/
structure SearchItem where
  title : String
  url : String
  labels : List Label
  publishedAt : String
  savedAt : String
deriving Repr, DecidableEq

/-- `SearchItemEdge` dataclass from backup.py. -/
structure SearchItemEdge where
  cursor : String
  node : SearchItem
deriving Repr, DecidableEq

/-! ## `_format_labels` -/

/-- `_format_labels`: `"\"[" + ",".join([label["name"] for label in labels]) + "]\""`. -/
def formatLabels (labels : List Label) : String :=
  "\"[" ++ String.intercalate "," (labels.map Label.name) ++ "]\""

/-! ## `_unix_ts`

`_unix_ts` does `datetime.fromisoformat(timestamp.replace('Z', '+00:00'))`,
then `str(int(d.timestamp()*1e3))`.  We embed: the single-character
replacement of `'Z'` by `"+00:00"`, an ISO-8601 parser for offset-aware
datetimes, proleptic-Gregorian epoch arithmetic (CPython's `toordinal`,
where 1970-01-01 has ordinal 719163), and truncation toward zero of the
millisecond count (Python `int()` on the float value; the float round-trip
is exact for the integral millisecond counts in range here). -/

/-- Python `timestamp.replace('Z', '+00:00')` on the character list: every
occurrence of the single character `Z` is expanded to `+00:00`. -/
def replaceZchars : List Char → List Char
  | [] => []
  | c :: cs => (if c = 'Z' then "+00:00".data else [c]) ++ replaceZchars cs

/-- Gregorian leap-year test, as in CPython's `datetime` module. -/
def isLeap (y : Nat) : Bool :=
  y % 4 == 0 && (y % 100 != 0 || y % 400 == 0)

/-- Number of days in month `m` of year `y` (months are 1-based). -/
def daysInMonth (y m : Nat) : Nat :=
  if m = 2 then (if isLeap y then 29 else 28)
  else if m = 4 ∨ m = 6 ∨ m = 9 ∨ m = 11 then 30
  else 31

/-- Days in all years strictly before year `y` (proleptic Gregorian,
year 1 is the first year), as in CPython's `_days_before_year`. -/
def daysBeforeYear (y : Nat) : Nat :=
  let n := y - 1
  n * 365 + n / 4 - n / 100 + n / 400

/-- Days in year `y` strictly before month `m`. -/
def daysBeforeMonth (y m : Nat) : Nat :=
  (List.range (m - 1)).foldl (fun acc i => acc + daysInMonth y (i + 1)) 0

/-- CPython `date.toordinal`: 0001-01-01 is ordinal 1. -/
def toOrdinal (y m d : Nat) : Nat :=
  daysBeforeYear y + daysBeforeMonth y m + d

/-- An offset-aware datetime as produced by `datetime.fromisoformat` on an
input carrying a UTC offset. -/
structure AwareDateTime where
  year : Nat
  month : Nat
  day : Nat
  hour : Nat
  minute : Nat
  second : Nat
  microsecond : Nat
  offsetMinutes : Int
deriving Repr, DecidableEq

/-- Parse exactly `n` decimal digits into a number (base-10 accumulator). -/
def parseFixedNat (acc : Nat) : Nat → List Char → Option (Nat × List Char)
  | 0, cs => some (acc, cs)
  | n + 1, c :: cs =>
      if c.isDigit then parseFixedNat (acc * 10 + (c.toNat - 48)) n cs else none
  | _ + 1, [] => none

/-- Consume the single expected character `c`. -/
def expectChar (c : Char) : List Char → Option (List Char)
  | d :: cs => if d = c then some cs else none
  | [] => none

/-- Parse an optional fractional-second part `.d{1..6}`, returning the value
in microseconds (absent fraction is 0 microseconds). -/
def parseFraction : List Char → Option (Nat × List Char)
  | '.' :: cs =>
      let digits := cs.takeWhile Char.isDigit
      let rest := cs.dropWhile Char.isDigit
      if digits.length = 0 ∨ 6 < digits.length then none
      else
        let v := digits.foldl (fun acc c => acc * 10 + (c.toNat - 48)) 0
        some (v * 10 ^ (6 - digits.length), rest)
  | cs => some (0, cs)

/-- Parse the sign of a UTC offset. -/
def parseOffsetSign : List Char → Option (Int × List Char)
  | '+' :: cs => some (1, cs)
  | '-' :: cs => some (-1, cs)
  | _ => none

/-- Parse the date part `YYYY-MM-DD`, returning `(year, month, day, rest)`. -/
def parseDatePart (s : List Char) : Option (Nat × Nat × Nat × List Char) := do
  let (y, cs) ← parseFixedNat 0 4 s
  let cs ← expectChar '-' cs
  let (mo, cs) ← parseFixedNat 0 2 cs
  let cs ← expectChar '-' cs
  let (d, cs) ← parseFixedNat 0 2 cs
  some (y, mo, d, cs)

/-- Parse the time-of-day part `HH:MM:SS[.f{1..6}]`, returning
`(hour, minute, second, microsecond, rest)`. -/
def parseTimePart (s : List Char) : Option (Nat × Nat × Nat × Nat × List Char) := do
  let (h, cs) ← parseFixedNat 0 2 s
  let cs ← expectChar ':' cs
  let (mi, cs) ← parseFixedNat 0 2 cs
  let cs ← expectChar ':' cs
  let (sec, cs) ← parseFixedNat 0 2 cs
  let (micro, cs) ← parseFraction cs
  some (h, mi, sec, micro, cs)

/-- Parse the UTC-offset part `±HH:MM`, returning the signed offset in
minutes together with the remaining input. -/
def parseOffsetPart (s : List Char) : Option (Int × Nat × Nat × List Char) := do
  let (sign, cs) ← parseOffsetSign s
  let (oh, cs) ← parseFixedNat 0 2 cs
  let cs ← expectChar ':' cs
  let (om, cs) ← parseFixedNat 0 2 cs
  some (sign, oh, om, cs)

/-- `datetime.fromisoformat` restricted to the offset-aware shape
`YYYY-MM-DDTHH:MM:SS[.f{1..6}]±HH:MM` (after the tool's `Z` replacement this
covers its inputs; naive datetimes are outside the model), including
CPython's range validation of the fields. -/
def pyFromIsoformat (s : List Char) : Option AwareDateTime := do
  let (y, mo, d, cs) ← parseDatePart s
  let cs ← expectChar 'T' cs
  let (h, mi, sec, micro, cs) ← parseTimePart cs
  let (sign, oh, om, cs) ← parseOffsetPart cs
  if cs.isEmpty ∧ 1 ≤ mo ∧ mo ≤ 12 ∧ 1 ≤ d ∧ d ≤ daysInMonth y mo
      ∧ 1 ≤ y ∧ y ≤ 9999 ∧ h ≤ 23 ∧ mi ≤ 59 ∧ sec ≤ 59 ∧ oh ≤ 23 ∧ om ≤ 59 then
    some ⟨y, mo, d, h, mi, sec, micro, sign * (oh * 60 + om)⟩
  else
    none

/-- `datetime.timestamp()` for an aware datetime, in whole seconds of the
integral part (the fractional part is carried separately in `microsecond`):
seconds since 1970-01-01T00:00:00+00:00. -/
def epochSeconds (dt : AwareDateTime) : Int :=
  ((toOrdinal dt.year dt.month dt.day : Int) - 719163) * 86400
    + dt.hour * 3600 + dt.minute * 60 + dt.second - dt.offsetMinutes * 60

/-- The instant of `dt` in microseconds since the Unix epoch. -/
def timestampMicro (dt : AwareDateTime) : Int :=
  epochSeconds dt * 1000000 + dt.microsecond

/-- `_unix_ts`: replace `'Z'` with `'+00:00'`, parse, convert to milliseconds
since the epoch truncated toward zero (`int(d.timestamp()*1e3)`), render as a
decimal string.  `none` models the `ValueError` CPython raises on an input
`fromisoformat` rejects. -/
def unixTs (timestamp : String) : Option String :=
  (pyFromIsoformat (replaceZchars timestamp.data)).map fun dt =>
    toString (Int.tdiv (timestampMicro dt) 1000)

/-! ## `_generate_csv`

The CSV renderer: a fixed header row, then one line per edge built by
joining five fields with commas.  A `ValueError` raised by `_unix_ts` on an
unparseable timestamp propagates out of `_generate_csv`; the rendering is
therefore `Option`-valued, `none` modelling the exception. -/

/-- The timestamp handed to `_unix_ts` for the `published_at` column:
`node.savedAt if not node.publishedAt else node.publishedAt`. -/
def pubSource (n : SearchItem) : String :=
  if n.publishedAt = "" then n.savedAt else n.publishedAt

/-- The five comma-joined fields of one CSV row, in source order, given the
already-converted timestamps. -/
def csvFields (n : SearchItem) (saved pub : String) : List String :=
  [n.url, "SUCCEEDED", formatLabels n.labels, saved, pub]

/-- One CSV line for a node: `",".join([...]) + '\n'`. -/
def csvRow (n : SearchItem) : Option String := do
  let saved ← unixTs n.savedAt
  let pub ← unixTs (pubSource n)
  some (String.intercalate "," (csvFields n saved pub) ++ "\n")

/-- The fixed header row of `_generate_csv`, including its newline. -/
def csvHeader : String := "url,state,labels,saved_at,published_at\n"

/-- `_generate_csv`: start from the header and concatenate one line per edge,
in accumulator order. -/
def generateCsv (edges : List SearchItemEdge) : Option String :=
  edges.foldlM (fun out e => (csvRow e.node).map (out ++ ·)) csvHeader

/-! ## The paginator: `_params_for_cursor` and `OmnivoreBackup._fetch`

In the source, the loop variable `cursor` starts as the integer `0` and is
then overwritten with the string `pageInfo.endCursor`; `_params_for_cursor`
tests `cursor == 0`, which in Python is true only for the integer (a string,
even `"0"`, never equals `0`).  The dynamically-typed variable is embedded
as a sum. -/

/-- The Python value held by the `cursor` loop variable: the initial integer
`0` or an `endCursor` string. -/
inductive PyCursor where
  | int (n : Int)
  | str (s : String)
deriving Repr, DecidableEq

/-- Python `cursor == 0`: integer comparison for ints, always false for
strings. -/
def pyCursorEqZero : PyCursor → Bool
  | .int n => n == 0
  | .str _ => false

/-- Python `str(cursor)`. -/
def pyStr : PyCursor → String
  | .int n => toString n
  | .str s => s

/-- The GraphQL variable values sent with one `execute` call. -/
structure QueryParams where
  query : String
  first : Int
  after : String
deriving Repr, DecidableEq

/-- `_params_for_cursor`. -/
def paramsForCursor (chunkSize : Int) (cursor : PyCursor) : QueryParams :=
  { query := ""
    first := chunkSize
    after := if pyCursorEqZero cursor then "" else pyStr cursor }

/-- The `search` payload of a response: the GraphQL union of
`SearchSuccess` and `SearchError`.  On the error variant the source's
`result['search']['pageInfo']` lookup raises `KeyError`. -/
inductive SearchResult where
  | success (edges : List SearchItemEdge) (pageInfo : PageInfo)
  | errorVariant (errorCodes : List String)
deriving Repr, DecidableEq

/-- Outcome of one `client.execute` call, as seen by `_fetch`: a response,
a transport-level exception, or a `KeyboardInterrupt` delivered during the
call. -/
inductive ExecOutcome where
  | ok (r : SearchResult)
  | transportFail
  | keyboardInterrupt
deriving Repr, DecidableEq

/-- How the `while has_next_page` loop ended, with the accumulated edges and
the trace of issued query parameters.  `hung` is the model artifact for a
schedule that ran out while the loop still wanted another page (the real
loop would keep calling). -/
inductive FetchOutcome where
  | done (edges : List SearchItemEdge) (trace : List QueryParams)
  | interrupted (edges : List SearchItemEdge) (trace : List QueryParams)
  | errored (edges : List SearchItemEdge) (trace : List QueryParams)
  | hung (edges : List SearchItemEdge) (trace : List QueryParams)
deriving Repr, DecidableEq

/-- The accumulated edges of an outcome, whatever its kind. -/
def FetchOutcome.edges : FetchOutcome → List SearchItemEdge
  | .done es _ => es
  | .interrupted es _ => es
  | .errored es _ => es
  | .hung es _ => es

/-- The issued-parameters trace of an outcome, whatever its kind. -/
def FetchOutcome.trace : FetchOutcome → List QueryParams
  | .done _ t => t
  | .interrupted _ t => t
  | .errored _ t => t
  | .hung _ t => t

/-- `OmnivoreBackup._fetch`: the `while has_next_page` loop, driven by the
deterministic simulated service `schedule` (the outcome of each successive
`execute` call, in call order).  Each iteration sends
`_params_for_cursor(chunksize, cursor)`; on a success response it reads
`pageInfo`, updates `has_next_page` and `cursor`, and appends the page's
edges to the accumulator in response order.  An error variant (whose
missing `pageInfo` key raises) or transport failure propagates as an
exception; a `KeyboardInterrupt` during the call leaves the accumulator as
it was. -/
def fetchGo (chunksize : Int) :
    List ExecOutcome → PyCursor → List SearchItemEdge → List QueryParams → FetchOutcome
  | [], _, acc, trace => .hung acc trace
  | o :: rest, cursor, acc, trace =>
    let trace' := trace ++ [paramsForCursor chunksize cursor]
    match o with
    | .keyboardInterrupt => .interrupted acc trace'
    | .transportFail => .errored acc trace'
    | .ok (.errorVariant _) => .errored acc trace'
    | .ok (.success pageEdges pageInfo) =>
        let cursor' := PyCursor.str pageInfo.endCursor
        let acc' := acc ++ pageEdges
        if pageInfo.hasNextPage then fetchGo chunksize rest cursor' acc' trace'
        else .done acc' trace'

/-- `_fetch` as called from `run`: `has_next_page = True`, `cursor = 0`,
empty accumulator. -/
def fetch (chunksize : Int) (schedule : List ExecOutcome) : FetchOutcome :=
  fetchGo chunksize schedule (.int 0) [] []

/-! ## Simulated service pages -/

/-- One page of the simulated result set: the edges the service emits for
that call together with the accompanying `pageInfo`. -/
structure Page where
  edges : List SearchItemEdge
  pageInfo : PageInfo
deriving Repr, DecidableEq

/-- The successful `execute` outcome serving a page. -/
def pageOk (p : Page) : ExecOutcome :=
  .ok (.success p.edges p.pageInfo)

/-- The query-parameter trace the loop should emit for a run of pages when
the incoming after-cursor is `after`: the first request carries `after`,
each later request the previous page's `endCursor`. -/
def expectedTrace (chunksize : Int) : List Page → String → List QueryParams
  | [], _ => []
  | p :: rest, after =>
      { query := "", first := chunksize, after := after }
        :: expectedTrace chunksize rest p.pageInfo.endCursor

/-- The value of the `cursor` variable after the loop has consumed the given
pages. -/
def cursorAfter : PyCursor → List Page → PyCursor
  | c, [] => c
  | _, p :: rest => cursorAfter (.str p.pageInfo.endCursor) rest

/-! ## `OmnivoreBackup.run` and `main`

`run` wraps `_fetch` in `try/except KeyboardInterrupt`; the handler calls
`_finish()`, and — the exception having been swallowed — control then falls
through to the unconditional `_finish()` after the `try`.  `_finish` prints
`_generate_csv(self.edges)`.  Any other exception propagates out of `run`
uncaught. -/

/-- How the process run ended: `normal` (control reached the end of `run`),
`raised` (an uncaught exception terminated it), or the schedule-exhausted
model artifact. -/
inductive RunTermination where
  | normal
  | raised
  | modelHung
deriving Repr, DecidableEq

/-- Observable result of `OmnivoreBackup.run`: the arguments of the `print`
calls made on stdout, in order, the way the run ended, and the number of
`execute` calls issued. -/
structure RunResult where
  printed : List String
  termination : RunTermination
  calls : Nat
deriving Repr, DecidableEq

/-- `OmnivoreBackup.run` for a backup constructed with the given chunk size,
observed against a service schedule. -/
def runModel (chunksize : Int) (schedule : List ExecOutcome) : RunResult :=
  match fetchGo chunksize schedule (.int 0) [] [] with
  | .done edges trace =>
      match generateCsv edges with
      | some csvText => ⟨[csvText], .normal, trace.length⟩
      | none => ⟨[], .raised, trace.length⟩
  | .interrupted edges trace =>
      match generateCsv edges with
      | some csvText => ⟨[csvText, csvText], .normal, trace.length⟩
      | none => ⟨[], .raised, trace.length⟩
  | .errored _ trace => ⟨[], .raised, trace.length⟩
  | .hung _ trace => ⟨[], .modelHung, trace.length⟩

/-- Python truthiness test `not token` on `os.getenv("TOKEN")`: true when
the variable is unset (`None`) or empty. -/
def tokenMissing : Option String → Bool
  | none => true
  | some s => s == ""

/-- The diagnostic `main` prints when no token is available. -/
def tokenDiagnostic : String :=
  "You have to provide a access key in the TOKEN environment variable."

/-- Observable result of the whole process: `print` arguments, the exit
status, whether a client was ever constructed, and how many queries went
out. -/
structure MainResult where
  printed : List String
  exitCode : Int
  clientConstructed : Bool
  networkCalls : Nat
deriving Repr, DecidableEq

/-- `main` (after argument parsing): read the token, bail out with
`sys.exit(1)` before any client is built when it is missing or empty,
otherwise construct the backup and `run` it.  A normal return of `main`
gives `sys.exit(main())` the value `None`, hence exit status 0; an uncaught
exception terminates the process with a nonzero status (CPython uses 1). -/
def mainModel (token : Option String) (chunksize : Int)
    (schedule : List ExecOutcome) : MainResult :=
  if tokenMissing token then
    ⟨[tokenDiagnostic], 1, false, 0⟩
  else
    let r := runModel chunksize schedule
    match r.termination with
    | .normal => ⟨r.printed, 0, true, r.calls⟩
    | .raised => ⟨r.printed, 1, true, r.calls⟩
    | .modelHung => ⟨r.printed, 1, true, r.calls⟩

/-- The after-cursor string `_params_for_cursor` derives from the loop
variable. -/
def afterOf (c : PyCursor) : String :=
  if pyCursorEqZero c then "" else pyStr c

/-- The list of CSV rows of a run of edges, `none` when any row's timestamp
conversion raises. -/
def rowsOf : List SearchItemEdge → Option (List String)
  | [] => some []
  | e :: es => do
      let r ← csvRow e.node
      let rs ← rowsOf es
      some (r :: rs)

/-- A concrete saved article used as test data: no labels, an empty
`publishedAt` and a `savedAt` of 2023-01-01T00:00:00Z. -/
def sampleItem : SearchItem :=
  ⟨"t1", "u1", [], "", "2023-01-01T00:00:00Z"⟩

/-- A concrete edge carrying `sampleItem`. -/
def sampleEdge : SearchItemEdge := ⟨"e1", sampleItem⟩

/-- A page holding `sampleEdge` that reports a further page. -/
def samplePageTrue : Page := ⟨[sampleEdge], ⟨true, false, "", "c1", 2⟩⟩

/-- A page holding `sampleEdge` that reports no further page. -/
def samplePageFalse : Page := ⟨[sampleEdge], ⟨false, false, "c1", "c2", 2⟩⟩

/-! ## String toolkit -/

theorem stringDataAppend (s t : String) : (s ++ t).data = s.data ++ t.data := by
  cases s; cases t; rfl

theorem stringJoinCons (s : String) (rs : List String) :
    String.join (s :: rs) = s ++ String.join rs := by
  apply String.ext
  simp [String.join_eq, stringDataAppend]

theorem stringJoinNil : String.join ([] : List String) = "" := by
  apply String.ext
  simp [String.join_eq]

theorem stringAppendEmpty (s : String) : s ++ "" = s := by
  apply String.ext
  simp [stringDataAppend]

theorem stringAppendAssoc (a b c : String) : a ++ b ++ c = a ++ (b ++ c) := by
  apply String.ext
  simp [stringDataAppend]

theorem intercalateFive (a b c d e : String) :
    String.intercalate "," [a, b, c, d, e] =
      a ++ "," ++ b ++ "," ++ c ++ "," ++ d ++ "," ++ e := by
  apply String.ext
  simp [String.intercalate, String.intercalate.go, stringDataAppend]

/-! ## Lemmas about `replaceZchars` -/

theorem replaceZchars_append (l₁ l₂ : List Char) :
    replaceZchars (l₁ ++ l₂) = replaceZchars l₁ ++ replaceZchars l₂ := by
  induction l₁ with
  | nil => rfl
  | cons c cs ih => simp [replaceZchars, ih]

theorem replaceZchars_of_no_Z (l : List Char) (h : 'Z' ∉ l) :
    replaceZchars l = l := by
  induction l with
  | nil => rfl
  | cons c cs ih =>
      simp only [List.mem_cons, not_or] at h
      simp [replaceZchars, ih h.2, Ne.symm h.1]

/-! ## Claim theorems: the formatter -/

/-- C5.  Labels serialization: for every label list, `_format_labels` joins
the label names with commas in sequence order and wraps the result in
brackets and double quotes; `[{name:"a"},{name:"b"}]` renders as `"[a,b]"`
and the empty label sequence renders as `"[]"`. -/
theorem formatLabels_spec :
    (∀ labels : List Label,
        formatLabels labels =
          "\"[" ++ String.intercalate "," (labels.map Label.name) ++ "]\"")
    ∧ formatLabels [⟨"a"⟩, ⟨"b"⟩] = "\"[a,b]\""
    ∧ formatLabels [] = "\"[]\"" :=
  ⟨fun _ => rfl, by decide, by decide⟩

/-- C10.  Labels serialization is not injective: the single label named
`a,b` and the two labels `a`, `b` are distinct label sequences, yet
`_format_labels` renders both as `"[a,b]"`, so the CSV labels column is
ambiguous for names containing commas. -/
theorem formatLabels_not_injective :
    formatLabels [⟨"a,b"⟩] = formatLabels [⟨"a"⟩, ⟨"b"⟩]
    ∧ ([⟨"a,b"⟩] : List Label) ≠ [⟨"a"⟩, ⟨"b"⟩] :=
  ⟨by decide, by decide⟩

/-- C6.  Timestamp conversion: a trailing `Z` designator is treated exactly
as a `+00:00` offset (for any string with no other `Z`, `_unix_ts` gives the
same result on `s + "Z"` and `s + "+00:00"`), and
`"2023-01-01T00:00:00Z"` renders as the decimal millisecond string
`"1672531200000"`. -/
theorem unixTs_trailing_Z (s : String) (h : 'Z' ∉ s.data) :
    unixTs (s ++ "Z") = unixTs (s ++ "+00:00")
    ∧ unixTs "2023-01-01T00:00:00Z" = some "1672531200000" := by
  have harg : replaceZchars (s ++ "Z").data = replaceZchars (s ++ "+00:00").data := by
    rw [stringDataAppend, stringDataAppend, replaceZchars_append, replaceZchars_append,
        replaceZchars_of_no_Z _ h]
    exact congrArg (s.data ++ ·) (by decide)
  exact ⟨by unfold unixTs; rw [harg], by decide⟩

theorem unixTs_trailing_Z_witness :
    unixTs ("2023-01-01T00:00:00" ++ "Z") = unixTs ("2023-01-01T00:00:00" ++ "+00:00") :=
  (unixTs_trailing_Z "2023-01-01T00:00:00" (by decide)).1

/-- C7.  `published_at` fallback: the timestamp handed to `_unix_ts` for the
last column is `publishedAt` when that is non-empty and `savedAt` otherwise;
with `publishedAt = ""` and `savedAt = "2023-06-01T12:00:00Z"` the row's
`saved_at` and `published_at` fields are both `"1685620800000"`. -/
theorem published_at_fallback (n : SearchItem) :
    (n.publishedAt ≠ "" → pubSource n = n.publishedAt)
    ∧ (n.publishedAt = "" → pubSource n = n.savedAt)
    ∧ (n.publishedAt = "" → n.savedAt = "2023-06-01T12:00:00Z" →
        csvRow n = some (String.intercalate ","
          (csvFields n "1685620800000" "1685620800000") ++ "\n")) := by
  refine ⟨fun h => by simp [pubSource, h], fun h => by simp [pubSource, h],
    fun h1 h2 => ?_⟩
  have hp : pubSource n = "2023-06-01T12:00:00Z" := by simp [pubSource, h1, h2]
  have hu : unixTs "2023-06-01T12:00:00Z" = some "1685620800000" := by decide
  simp [csvRow, hp, h2, hu]

theorem published_at_fallback_witness :
    csvRow ⟨"t", "u", [], "", "2023-06-01T12:00:00Z"⟩ =
      some (String.intercalate "," (csvFields ⟨"t", "u", [], "", "2023-06-01T12:00:00Z"⟩
        "1685620800000" "1685620800000") ++ "\n") :=
  (published_at_fallback ⟨"t", "u", [], "", "2023-06-01T12:00:00Z"⟩).2.2 rfl rfl


/-! ## Lemmas about the fetch loop -/

theorem paramsForCursor_eq (cs : Int) (c : PyCursor) :
    paramsForCursor cs c = ⟨"", cs, afterOf c⟩ := rfl

theorem afterOf_str (s : String) : afterOf (.str s) = s := rfl

theorem afterOf_zero : afterOf (.int 0) = "" := rfl

theorem expectedTrace_length (cs : Int) :
    ∀ (pages : List Page) (after : String),
      (expectedTrace cs pages after).length = pages.length := by
  intro pages
  induction pages with
  | nil => intro after; rfl
  | cons p rest ih => intro after; simp [expectedTrace, ih]

/-- Running the loop against the pages of a chain in which the loop never
sees a false `hasNextPage` before index `k`, where it sees its first false
flag: it terminates right there, having accumulated the edges of pages
`0..k` in order, and having issued one request per page, the first with the
incoming after-cursor and each later one with the previous page's
`endCursor`. -/
theorem fetchGo_chain (cs : Int) :
    ∀ (pages : List Page) (k : Nat) (pk : Page) (cursor : PyCursor)
      (acc : List SearchItemEdge) (trace : List QueryParams),
      pages[k]? = some pk →
      pk.pageInfo.hasNextPage = false →
      (∀ p ∈ pages.take k, p.pageInfo.hasNextPage = true) →
      fetchGo cs (pages.map pageOk) cursor acc trace =
        .done (acc ++ (pages.take (k + 1)).flatMap Page.edges)
              (trace ++ expectedTrace cs (pages.take (k + 1)) (afterOf cursor)) := by
  intro pages
  induction pages with
  | nil => intro k pk cursor acc trace hget; simp at hget
  | cons p rest ih =>
      intro k pk cursor acc trace hget hfalse hprev
      match k with
      | 0 =>
          simp only [List.getElem?_cons_zero, Option.some.injEq] at hget
          subst hget
          simp [fetchGo, pageOk, hfalse, expectedTrace, paramsForCursor_eq]
      | j + 1 =>
          have hp : p.pageInfo.hasNextPage = true := by
            apply hprev p
            simp [List.take_succ_cons]
          simp only [List.getElem?_cons_succ] at hget
          have hprev' : ∀ q ∈ rest.take j, q.pageInfo.hasNextPage = true := by
            intro q hq
            exact hprev q (by simp [List.take_succ_cons, hq])
          have hrec := ih j pk (.str p.pageInfo.endCursor) (acc ++ p.edges)
            (trace ++ [paramsForCursor cs cursor]) hget hfalse hprev'
          simp only [List.map_cons, fetchGo, pageOk, hp, if_true]
          rw [hrec]
          simp [List.take_succ_cons, expectedTrace, paramsForCursor_eq, afterOf_str]

/-! ## Claim theorems: the paginator -/

/-- C1.  Pagination completeness and termination: for any chunk size and any
finite simulated result set whose pages report `hasNextPage = true` up to
the first `false` page (index `k`), the fetch loop returns exactly the edges
of pages `0..k`, once each, in emission order; it terminates exactly at the
first `false` flag, the first request carries the empty after-cursor, and
every later request carries the previous page's `endCursor`. -/
theorem fetch_pagination_complete (cs : Int) (pages : List Page) (k : Nat) (pk : Page)
    (hget : pages[k]? = some pk)
    (hfalse : pk.pageInfo.hasNextPage = false)
    (hprev : ∀ p ∈ pages.take k, p.pageInfo.hasNextPage = true) :
    fetch cs (pages.map pageOk) =
      .done ((pages.take (k + 1)).flatMap Page.edges)
            (expectedTrace cs (pages.take (k + 1)) "") := by
  have h := fetchGo_chain cs pages k pk (.int 0) [] [] hget hfalse hprev
  simpa [fetch, afterOf_zero] using h

theorem fetch_pagination_complete_witness :
    [samplePageTrue, samplePageFalse][1]? = some samplePageFalse
    ∧ fetch 2 ([samplePageTrue, samplePageFalse].map pageOk) =
        .done (([samplePageTrue, samplePageFalse].take 2).flatMap Page.edges)
              (expectedTrace 2 ([samplePageTrue, samplePageFalse].take 2) "") :=
  ⟨by decide,
   fetch_pagination_complete 2 [samplePageTrue, samplePageFalse] 1 samplePageFalse
     (by decide) (by decide) (by decide)⟩

/-- Running the loop against a schedule that first serves a run of pages all
reporting `hasNextPage = true` and then continues with `tail`: the loop
consumes every page, appending its edges and threading its `endCursor`, and
proceeds into `tail`. -/
theorem fetchGo_through_pages (cs : Int) :
    ∀ (pages : List Page) (tail : List ExecOutcome) (cursor : PyCursor)
      (acc : List SearchItemEdge) (trace : List QueryParams),
      (∀ p ∈ pages, p.pageInfo.hasNextPage = true) →
      fetchGo cs (pages.map pageOk ++ tail) cursor acc trace =
        fetchGo cs tail (cursorAfter cursor pages)
          (acc ++ pages.flatMap Page.edges)
          (trace ++ expectedTrace cs pages (afterOf cursor)) := by
  intro pages
  induction pages with
  | nil =>
      intro tail cursor acc trace _
      simp [cursorAfter, expectedTrace]
  | cons p rest ih =>
      intro tail cursor acc trace hall
      have hp : p.pageInfo.hasNextPage = true := hall p (by simp)
      have hrest : ∀ q ∈ rest, q.pageInfo.hasNextPage = true :=
        fun q hq => hall q (by simp [hq])
      simp only [List.map_cons, List.cons_append, fetchGo, pageOk, hp, if_true,
        List.append_eq]
      rw [ih tail (.str p.pageInfo.endCursor) (acc ++ p.edges)
        (trace ++ [paramsForCursor cs cursor]) hrest]
      simp [cursorAfter, expectedTrace, paramsForCursor_eq, afterOf_str]

/-! ## Claim theorems: `run` -/

/-- C2.  Interrupt handling: when a `KeyboardInterrupt` arrives at the call
following `N` fully accumulated pages, the run finalizes with exactly the
records of those `N` pages — but the CSV block is printed twice, because the
`except KeyboardInterrupt` handler calls `_finish()` and control then falls
through to the unconditional `_finish()` after the `try` block.  This
refutes the claim's "emitted exactly once": the record set is right, the
emission count is 2. -/
theorem run_interrupt_prints_csv_twice (cs : Int) (pages : List Page) (csvText : String)
    (hall : ∀ p ∈ pages, p.pageInfo.hasNextPage = true)
    (hcsv : generateCsv (pages.flatMap Page.edges) = some csvText) :
    runModel cs (pages.map pageOk ++ [.keyboardInterrupt]) =
      ⟨[csvText, csvText], .normal, pages.length + 1⟩ := by
  unfold runModel
  rw [fetchGo_through_pages cs pages [.keyboardInterrupt] (.int 0) [] [] hall]
  simp [fetchGo, hcsv, expectedTrace_length]

theorem run_interrupt_prints_csv_twice_witness :
    generateCsv ([samplePageTrue].flatMap Page.edges) =
      some "url,state,labels,saved_at,published_at\nu1,SUCCEEDED,\"[]\",1672531200000,1672531200000\n"
    ∧ runModel 2 ([samplePageTrue].map pageOk ++ [.keyboardInterrupt]) =
        ⟨["url,state,labels,saved_at,published_at\nu1,SUCCEEDED,\"[]\",1672531200000,1672531200000\n",
          "url,state,labels,saved_at,published_at\nu1,SUCCEEDED,\"[]\",1672531200000,1672531200000\n"],
         .normal, 2⟩ :=
  ⟨by decide,
   run_interrupt_prints_csv_twice 2 [samplePageTrue]
     "url,state,labels,saved_at,published_at\nu1,SUCCEEDED,\"[]\",1672531200000,1672531200000\n"
     (by decide) (by decide)⟩

/-- C3.  Service-error atomicity: if the executor fails at any iteration —
a transport failure or the service answering with the `SearchError` variant
(whose missing `pageInfo` key raises) — the exception propagates out of
`run` uncaught, the run terminates, and nothing at all is printed: not even
the records accumulated on the earlier pages. -/
theorem run_service_error_no_output (cs : Int) (pages : List Page) (failure : ExecOutcome)
    (hall : ∀ p ∈ pages, p.pageInfo.hasNextPage = true)
    (hfail : failure = .transportFail ∨ ∃ codes, failure = .ok (.errorVariant codes)) :
    runModel cs (pages.map pageOk ++ [failure]) = ⟨[], .raised, pages.length + 1⟩ := by
  unfold runModel
  rw [fetchGo_through_pages cs pages [failure] (.int 0) [] [] hall]
  rcases hfail with h | ⟨codes, h⟩ <;> subst h <;>
    simp [fetchGo, expectedTrace_length]

theorem run_service_error_no_output_witness :
    runModel 2 ([samplePageTrue].map pageOk ++ [.transportFail]) = ⟨[], .raised, 2⟩ :=
  run_service_error_no_output 2 [samplePageTrue] .transportFail (by decide) (Or.inl rfl)

/-! ## Claim theorems: accumulator invariant, CSV shape, token check -/

/-- C9.  Accumulator invariant: from any intermediate state the loop only
ever extends the accumulated edge list on the right (append-only, no
removal or reordering), whatever the schedule and however the loop ends;
and no deduplication is performed — the same record served on two pages
appears twice in the accumulator and its row appears twice in the CSV. -/
theorem edges_append_only_no_dedup :
    (∀ (cs : Int) (schedule : List ExecOutcome) (cursor : PyCursor)
        (acc : List SearchItemEdge) (trace : List QueryParams),
        ∃ new, (fetchGo cs schedule cursor acc trace).edges = acc ++ new)
    ∧ (fetch 2 [pageOk samplePageTrue, pageOk samplePageFalse]).edges =
        [sampleEdge, sampleEdge]
    ∧ generateCsv [sampleEdge, sampleEdge] =
        some ("url,state,labels,saved_at,published_at\n"
          ++ "u1,SUCCEEDED,\"[]\",1672531200000,1672531200000\n"
          ++ "u1,SUCCEEDED,\"[]\",1672531200000,1672531200000\n") := by
  refine ⟨fun cs schedule => ?_, by decide, by decide⟩
  induction schedule with
  | nil =>
      intro cursor acc trace
      exact ⟨[], by simp [fetchGo, FetchOutcome.edges]⟩
  | cons o rest ih =>
      intro cursor acc trace
      match o with
      | .keyboardInterrupt => exact ⟨[], by simp [fetchGo, FetchOutcome.edges]⟩
      | .transportFail => exact ⟨[], by simp [fetchGo, FetchOutcome.edges]⟩
      | .ok (.errorVariant codes) => exact ⟨[], by simp [fetchGo, FetchOutcome.edges]⟩
      | .ok (.success pageEdges pageInfo) =>
          cases hn : pageInfo.hasNextPage with
          | true =>
              obtain ⟨new, hnew⟩ := ih (.str pageInfo.endCursor) (acc ++ pageEdges)
                (trace ++ [paramsForCursor cs cursor])
              exact ⟨pageEdges ++ new, by
                simp only [fetchGo, hn, if_true]
                rw [hnew, List.append_assoc]⟩
          | false =>
              exact ⟨pageEdges, by simp [fetchGo, hn, FetchOutcome.edges]⟩

/-- Folding the row-concatenation over a run of edges whose rows all render
prepends the seed and concatenates the rows in order. -/
theorem generateCsv_fold (edges : List SearchItemEdge) :
    ∀ (rows : List String) (init : String),
      rowsOf edges = some rows →
      edges.foldlM (fun out e => (csvRow e.node).map (out ++ ·)) init =
        some (init ++ String.join rows) ∧ rows.length = edges.length := by
  induction edges with
  | nil =>
      intro rows init h
      simp only [rowsOf, Option.some.injEq] at h
      subst h
      simp [stringJoinNil, stringAppendEmpty]
  | cons e es ih =>
      intro rows init h
      cases hr : csvRow e.node with
      | none => simp [rowsOf, hr] at h
      | some r =>
          cases hrs : rowsOf es with
          | none => simp [rowsOf, hr, hrs] at h
          | some rs =>
              simp [rowsOf, hr, hrs] at h
              subst h
              obtain ⟨h1, h2⟩ := ih rs (init ++ r) hrs
              refine ⟨?_, by simp [h2]⟩
              simp [List.foldlM_cons, hr, h1, stringJoinCons, stringAppendAssoc]

/-- C4.  Output shape: whenever every row renders (each `savedAt` and
fallback timestamp parses), `_generate_csv` returns a single string that is
the fixed header row followed by exactly one newline-terminated row per
edge, in accumulator order; and every row is its record's URL, then the
literal constant `SUCCEEDED` as the second comma-joined field, then labels
and the two timestamps. -/
theorem generateCsv_shape (edges : List SearchItemEdge) (rows : List String)
    (h : rowsOf edges = some rows) :
    generateCsv edges = some (csvHeader ++ String.join rows)
    ∧ rows.length = edges.length
    ∧ (∀ (n : SearchItem) (saved pub : String),
        unixTs n.savedAt = some saved → unixTs (pubSource n) = some pub →
        csvRow n = some (n.url ++ "," ++ "SUCCEEDED" ++ "," ++ formatLabels n.labels
          ++ "," ++ saved ++ "," ++ pub ++ "\n")) := by
  obtain ⟨h1, h2⟩ := generateCsv_fold edges rows csvHeader h
  refine ⟨h1, h2, fun n saved pub hs hp => ?_⟩
  simp [csvRow, hs, hp, csvFields, intercalateFive]

theorem generateCsv_shape_witness :
    rowsOf [sampleEdge] = some ["u1,SUCCEEDED,\"[]\",1672531200000,1672531200000\n"]
    ∧ generateCsv [sampleEdge] =
        some (csvHeader ++ String.join ["u1,SUCCEEDED,\"[]\",1672531200000,1672531200000\n"]) :=
  ⟨by decide,
   (generateCsv_shape [sampleEdge] ["u1,SUCCEEDED,\"[]\",1672531200000,1672531200000\n"]
     (by decide)).1⟩

/-- C8.  Missing token: when the `TOKEN` environment variable is unset or
empty, `main` prints the diagnostic, exits with status 1 (nonzero), never
constructs a client, and issues zero network calls. -/
theorem main_missing_token (token : Option String) (cs : Int)
    (schedule : List ExecOutcome) (h : token = none ∨ token = some "") :
    mainModel token cs schedule = ⟨[tokenDiagnostic], 1, false, 0⟩
    ∧ (mainModel token cs schedule).exitCode ≠ 0 := by
  have e : mainModel token cs schedule = ⟨[tokenDiagnostic], 1, false, 0⟩ := by
    rcases h with h | h <;> subst h <;> rfl
  refine ⟨e, ?_⟩
  rw [e]
  decide

theorem main_missing_token_witness :
    mainModel none 100 [] = ⟨[tokenDiagnostic], 1, false, 0⟩ :=
  (main_missing_token none 100 [] (Or.inl rfl)).1
